import Mathlib

/-!
Shallow embedding of the WASI TCP socket layer of this repository
(`crates/wasi/src/host/tcp.rs`, `crates/wasi/src/host/network.rs`,
`crates/wasi/src/tcp.rs`) together with proofs about it.

Modelling conventions:
* The embedding fixes the Unix configuration of the crate: `#[cfg(windows)]`
  arms are omitted and `#[cfg(target_os = "macos")]` shadow-option fields are
  omitted.  The one platform test that is a *runtime* expression in the source
  (`cfg!(target_os = "linux")` inside `normalize_get_buffer_size`) is kept as
  an explicit `isLinux : Bool` parameter.
* Machine integers (`u8`, `u16`, `u32`, `u64`, `usize`, `i32`) are embedded as
  `Nat`; the code under consideration never overflows them (all arithmetic is
  comparisons, clamping, division and multiplication by 2 below `2^63`), and
  lossy conversions (`try_into().unwrap_or(MAX)`) are spelled out explicitly.
* OS syscalls are not executed: each embedded function takes the outcome of
  the syscall(s) it would issue as an explicit oracle argument
  (`Except Errno _`), and returns the list of syscalls it actually issued so
  that "no syscall is performed" claims are statable.
* Fallible Rust functions returning `io::Result` / `SocketResult` become
  functions into `Except`; `&mut self` methods additionally return the updated
  receiver.
-/

namespace WasiTcp

/-- The closed WASI socket error taxonomy, from
`crate::bindings::sockets::network::ErrorCode`. -/
inductive ErrorCode
  | unknown
  | accessDenied
  | notSupported
  | invalidArgument
  | outOfMemory
  | timeout
  | concurrencyConflict
  | notInProgress
  | wouldBlock
  | invalidState
  | newSocketLimit
  | addressNotBindable
  | addressInUse
  | remoteUnreachable
  | connectionRefused
  | connectionReset
  | connectionAborted
  | datagramTooLarge
deriving DecidableEq

/-- The raw OS error numbers (`rustix::io::Errno`) that the TCP code
inspects or produces.  On Linux `EWOULDBLOCK` and `EAGAIN` are the same
number, so they are one constructor here. -/
inductive Errno
  | WOULDBLOCK
  | INTR
  | PERM
  | ACCESS
  | ADDRINUSE
  | ADDRNOTAVAIL
  | ALREADY
  | TIMEDOUT
  | CONNREFUSED
  | CONNRESET
  | CONNABORTED
  | INVAL
  | HOSTUNREACH
  | HOSTDOWN
  | NETDOWN
  | NETUNREACH
  | NONET
  | ISCONN
  | NOTCONN
  | DESTADDRREQ
  | NFILE
  | MFILE
  | MSGSIZE
  | NOMEM
  | NOBUFS
  | OPNOTSUPP
  | NOPROTOOPT
  | PFNOSUPPORT
  | PROTONOSUPPORT
  | PROTOTYPE
  | SOCKTNOSUPPORT
  | AFNOSUPPORT
  | INPROGRESS
  | NETRESET
  | PROTO
deriving DecidableEq

/-- The `std::io::ErrorKind` values distinguished by the error-mapping code
(everything else is `other`). -/
inductive IoErrorKind
  | addrInUse
  | addrNotAvailable
  | connectionAborted
  | connectionRefused
  | connectionReset
  | interrupted
  | invalidInput
  | notConnected
  | outOfMemory
  | permissionDenied
  | timedOut
  | unsupported
  | wouldBlock
  | other
deriving DecidableEq

/-- A `std::io::Error`: either carries a raw OS errno (then
`Errno::from_io_error` recovers it), or was constructed from an
`ErrorKind` via `io::Error::new` (then no errno is attached). -/
inductive IoError
  | fromErrno (e : Errno)
  | fromKind (k : IoErrorKind)
deriving DecidableEq

/-- The per-errno arm of `impl From<Errno> for ErrorCode` in
`host/network.rs` (Linux configuration: the `#[cfg(not(windows))]` and
`#[cfg(target_os = "linux")]` arms are included). -/
def errnoToErrorCode : Errno → ErrorCode
  | .WOULDBLOCK => .wouldBlock
  | .INTR => .wouldBlock
  | .PERM => .accessDenied
  | .ACCESS => .accessDenied
  | .ADDRINUSE => .addressInUse
  | .ADDRNOTAVAIL => .addressNotBindable
  | .ALREADY => .concurrencyConflict
  | .TIMEDOUT => .timeout
  | .CONNREFUSED => .connectionRefused
  | .CONNRESET => .connectionReset
  | .CONNABORTED => .connectionAborted
  | .INVAL => .invalidArgument
  | .HOSTUNREACH => .remoteUnreachable
  | .HOSTDOWN => .remoteUnreachable
  | .NETDOWN => .remoteUnreachable
  | .NETUNREACH => .remoteUnreachable
  | .NONET => .remoteUnreachable
  | .ISCONN => .invalidState
  | .NOTCONN => .invalidState
  | .DESTADDRREQ => .invalidState
  | .NFILE => .newSocketLimit
  | .MFILE => .newSocketLimit
  | .MSGSIZE => .datagramTooLarge
  | .NOMEM => .outOfMemory
  | .NOBUFS => .outOfMemory
  | .OPNOTSUPP => .notSupported
  | .NOPROTOOPT => .notSupported
  | .PFNOSUPPORT => .notSupported
  | .PROTONOSUPPORT => .notSupported
  | .PROTOTYPE => .notSupported
  | .SOCKTNOSUPPORT => .notSupported
  | .AFNOSUPPORT => .notSupported
  | .INPROGRESS => .unknown
  | .NETRESET => .unknown
  | .PROTO => .unknown

/-- The `value.kind()` arm of `impl From<io::Error> for ErrorCode` in
`host/network.rs`. -/
def ioErrorKindToErrorCode : IoErrorKind → ErrorCode
  | .addrInUse => .addressInUse
  | .addrNotAvailable => .addressNotBindable
  | .connectionAborted => .connectionAborted
  | .connectionRefused => .connectionRefused
  | .connectionReset => .connectionReset
  | .interrupted => .wouldBlock
  | .invalidInput => .invalidArgument
  | .notConnected => .invalidState
  | .outOfMemory => .outOfMemory
  | .permissionDenied => .accessDenied
  | .timedOut => .timeout
  | .unsupported => .notSupported
  | .wouldBlock => .wouldBlock
  | .other => .unknown

/-- Embedding of `impl From<io::Error> for ErrorCode`: the raw errno is tried
first, otherwise the `ErrorKind` table is used. -/
def IoError.toErrorCode : IoError → ErrorCode
  | .fromErrno e => errnoToErrorCode e
  | .fromKind k => ioErrorKindToErrorCode k

/-- Whether `e.kind() == io::ErrorKind::WouldBlock` holds for this error
(std maps `EWOULDBLOCK`/`EAGAIN` to `ErrorKind::WouldBlock`). -/
def IoError.isWouldBlock : IoError → Bool
  | .fromErrno .WOULDBLOCK => true
  | .fromKind .wouldBlock => true
  | _ => false

/-- An IPv4 address as its four octets (`std::net::Ipv4Addr`).  Octets are
`u8` in the source; the invariant `oᵢ < 256` is implicit here. -/
structure Ipv4Addr where
  o0 : Nat
  o1 : Nat
  o2 : Nat
  o3 : Nat
deriving DecidableEq

/-- An IPv6 address as its eight 16-bit segments (`std::net::Ipv6Addr`).
Segments are `u16` in the source; the invariant `sᵢ < 65536` is implicit. -/
structure Ipv6Addr where
  s0 : Nat
  s1 : Nat
  s2 : Nat
  s3 : Nat
  s4 : Nat
  s5 : Nat
  s6 : Nat
  s7 : Nat
deriving DecidableEq

/-- Rust `Ipv4Addr::is_multicast`: first octet in `224..=239`. -/
def Ipv4Addr.is_multicast (a : Ipv4Addr) : Bool :=
  224 ≤ a.o0 && a.o0 ≤ 239

/-- Rust `Ipv4Addr::is_broadcast`: `255.255.255.255`. -/
def Ipv4Addr.is_broadcast (a : Ipv4Addr) : Bool :=
  a.o0 == 255 && a.o1 == 255 && a.o2 == 255 && a.o3 == 255

/-- Rust `Ipv4Addr::is_unspecified`: `0.0.0.0`. -/
def Ipv4Addr.is_unspecified (a : Ipv4Addr) : Bool :=
  a.o0 == 0 && a.o1 == 0 && a.o2 == 0 && a.o3 == 0

/-- Rust `Ipv6Addr::UNSPECIFIED` (`::`). -/
def Ipv6Addr.unspecified : Ipv6Addr := ⟨0, 0, 0, 0, 0, 0, 0, 0⟩

/-- Rust `Ipv6Addr::LOCALHOST` (`::1`). -/
def Ipv6Addr.localhost : Ipv6Addr := ⟨0, 0, 0, 0, 0, 0, 0, 1⟩

/-- Rust `Ipv6Addr::is_multicast`: `(segments()[0] & 0xff00) == 0xff00`. -/
def Ipv6Addr.is_multicast (a : Ipv6Addr) : Bool :=
  a.s0 &&& 0xff00 == 0xff00

/-- Rust `Ipv6Addr::is_unspecified`. -/
def Ipv6Addr.is_unspecified (a : Ipv6Addr) : Bool :=
  a == Ipv6Addr.unspecified

/-- Rust `Ipv6Addr::to_ipv4_mapped`: `Some` exactly for
`::ffff:a.b.c.d`, splitting the low two segments into octets. -/
def Ipv6Addr.to_ipv4_mapped (a : Ipv6Addr) : Option Ipv4Addr :=
  if a.s0 == 0 && a.s1 == 0 && a.s2 == 0 && a.s3 == 0 && a.s4 == 0
      && a.s5 == 0xffff then
    some ⟨a.s6 / 256, a.s6 % 256, a.s7 / 256, a.s7 % 256⟩
  else
    none

/-- Rust `std::net::IpAddr`. -/
inductive IpAddr
  | v4 (a : Ipv4Addr)
  | v6 (a : Ipv6Addr)
deriving DecidableEq

/-- Rust `IpAddr::is_unspecified`. -/
def IpAddr.is_unspecified : IpAddr → Bool
  | .v4 a => a.is_unspecified
  | .v6 a => a.is_unspecified

/-- A socket address (`std::net::SocketAddr`).  The V6-only `flowinfo` and
`scope_id` fields are omitted: none of the embedded functions read them. -/
structure SocketAddr where
  ip : IpAddr
  port : Nat
deriving DecidableEq

/-- `crate::network::SocketAddrFamily`. -/
inductive SocketAddrFamily
  | v4
  | v6
deriving DecidableEq

/-- `util::to_canonical` from `host/network.rs`: an IPv4-mapped IPv6 address
becomes its V4 equivalent, everything else is unchanged. -/
def to_canonical : IpAddr → IpAddr
  | .v4 a => .v4 a
  | .v6 a =>
    match a.to_ipv4_mapped with
    | some v4 => .v4 v4
    | none => .v6 a

/-- `util::is_deprecated_ipv4_compatible` from `host/network.rs`:
`matches!(addr.segments(), [0,0,0,0,0,0,_,_])` and the address is neither
`UNSPECIFIED` nor `LOCALHOST`. -/
def is_deprecated_ipv4_compatible (a : Ipv6Addr) : Bool :=
  (a.s0 == 0 && a.s1 == 0 && a.s2 == 0 && a.s3 == 0 && a.s4 == 0 && a.s5 == 0)
    && !(a == Ipv6Addr.unspecified) && !(a == Ipv6Addr.localhost)

/-- `util::validate_unicast` from `host/network.rs`. -/
def validate_unicast (addr : SocketAddr) : Except IoError Unit :=
  match to_canonical addr.ip with
  | .v4 ipv4 =>
    if ipv4.is_multicast || ipv4.is_broadcast then
      .error (.fromKind .invalidInput)
    else
      .ok ()
  | .v6 ipv6 =>
    if ipv6.is_multicast then
      .error (.fromKind .invalidInput)
    else
      .ok ()

/-- `util::validate_remote_address` from `host/network.rs`: rejects an
unspecified IP (after canonicalization) and port 0. -/
def validate_remote_address (addr : SocketAddr) : Except IoError Unit :=
  if (to_canonical addr.ip).is_unspecified then
    .error (.fromKind .invalidInput)
  else if addr.port == 0 then
    .error (.fromKind .invalidInput)
  else
    .ok ()

/-- `util::validate_address_family` from `host/network.rs`. -/
def validate_address_family (addr : SocketAddr) (socket_family : SocketAddrFamily) :
    Except IoError Unit :=
  match socket_family, addr.ip with
  | .v4, .v4 _ => .ok ()
  | .v6, .v6 ipv6 =>
    if is_deprecated_ipv4_compatible ipv6 then
      .error (.fromKind .invalidInput)
    else if ipv6.to_ipv4_mapped.isSome then
      .error (.fromKind .invalidInput)
    else
      .ok ()
  | _, _ => .error (.fromKind .invalidInput)

/-- Abstract identifier for an OS socket handle (the `Arc<tokio::net::TcpStream>`
shared by a socket and its reader/writer halves). -/
abbrev Handle := Nat

/-- `std::net::Shutdown`. -/
inductive ShutdownHow
  | read
  | write
  | both
deriving DecidableEq

/-- The OS syscalls the embedded functions may issue.  Each embedded operation
returns the list of syscalls it issued, so claims of the form "returns an
error before any syscall" are statable. -/
inductive Syscall
  | connectCall (h : Handle) (remote : SocketAddr)
  | listenCall (h : Handle) (backlog : Nat)
  | getLocalAddr (h : Handle)
  | getPeerAddr (h : Handle)
  | setTtl (h : Handle) (value : Nat)
  | setV6UnicastHops (h : Handle) (value : Nat)
  | setKeepIdle (h : Handle) (nanos : Nat)
  | setKeepIntvl (h : Handle) (nanos : Nat)
  | setKeepCnt (h : Handle) (count : Nat)
  | setRcvBuf (h : Handle) (size : Nat)
  | setSndBuf (h : Handle) (size : Nat)
  | getRcvBuf (h : Handle)
  | getSndBuf (h : Handle)
  | shutdownCall (h : Handle) (how : ShutdownHow)
deriving DecidableEq

/-- `i32::MAX`. -/
def i32Max : Nat := 2147483647

/-- Rust `x.clamp(lo, hi)` on unsigned integers (`lo ≤ hi` at every use
site). -/
def clampNat (lo hi x : Nat) : Nat := max lo (min x hi)

/-- One second in nanoseconds (`Duration` values are embedded as their total
nanosecond count). -/
def nanosPerSec : Nat := 1000000000

/-- `SystemTcpReader` from `tcp.rs`: a non-exclusive share of the stream. -/
structure SystemTcpReader where
  inner : Handle
deriving DecidableEq

/-- `SystemTcpWriter` from `tcp.rs`: a non-exclusive share of the stream. -/
structure SystemTcpWriter where
  inner : Handle
deriving DecidableEq

/-- `std::task::Poll`. -/
inductive Poll (α : Type)
  | ready (a : α)
  | pending

/-- `SystemTcpSocket` from `tcp.rs` (Linux configuration: the
`#[cfg(target_os = "macos")]` shadow-option fields do not exist). -/
structure SystemTcpSocket where
  stream : Handle
  listen_backlog_size : Nat
  is_listening : Bool
  family : SocketAddrFamily
deriving DecidableEq

/-- `SystemTcpSocket::DEFAULT_BACKLOG_SIZE`. -/
def DEFAULT_BACKLOG_SIZE : Nat := 128

/-- `SystemTcpSocket::from_fd`: wraps a handle with the default field values.
The tokio registration step, which can only fail on runtime misconfiguration,
is modelled as always succeeding. -/
def SystemTcpSocket.from_fd (fd : Handle) (family : SocketAddrFamily) :
    SystemTcpSocket :=
  { stream := fd
    listen_backlog_size := DEFAULT_BACKLOG_SIZE
    is_listening := false
    family := family }

/-- `SystemTcpSocket::listen` from `tcp.rs`: fails if already listening,
otherwise issues the `listen` syscall (outcome `osListen`) and records
`is_listening` on success.  The `#[cfg(windows)]` `EMFILE` rewrite is omitted
(Unix configuration). -/
def SystemTcpSocket.listen (sock : SystemTcpSocket) (osListen : Except Errno Unit) :
    (Except IoError Unit × SystemTcpSocket) × List Syscall :=
  if sock.is_listening then
    ((.error (.fromKind .other), sock), [])
  else
    match osListen with
    | .error e => ((.error (.fromErrno e), sock),
        [.listenCall sock.stream sock.listen_backlog_size])
    | .ok () => ((.ok (), { sock with is_listening := true }),
        [.listenCall sock.stream sock.listen_backlog_size])

/-- `SystemTcpSocket::set_listen_backlog_size` from `tcp.rs`.  The `usize`
value is converted with `try_into().unwrap_or(i32::MAX)` and then clamped to
`[1, i32::MAX]`; when already listening, `listen` is re-issued (outcome
`osListen`) and any error is rewritten to `EOPNOTSUPP` and returned before
the stored field is updated. -/
def SystemTcpSocket.set_listen_backlog_size (sock : SystemTcpSocket) (value : Nat)
    (osListen : Except Errno Unit) :
    (Except IoError Unit × SystemTcpSocket) × List Syscall :=
  if value == 0 then
    ((.error (.fromErrno .INVAL), sock), [])
  else
    let v1 := if value ≤ i32Max then value else i32Max
    let v2 := clampNat 1 i32Max v1
    if sock.is_listening then
      match osListen with
      | .error _ => ((.error (.fromErrno .OPNOTSUPP), sock),
          [.listenCall sock.stream v2])
      | .ok () => ((.ok (), { sock with listen_backlog_size := v2 }),
          [.listenCall sock.stream v2])
    else
      ((.ok (), { sock with listen_backlog_size := v2 }), [])

/-- `util::set_ip_ttl` from `host/network.rs`: 0 is rejected with `EINVAL`
before the syscall. -/
def set_ip_ttl (h : Handle) (value : Nat) (os : Except Errno Unit) :
    Except Errno Unit × List Syscall :=
  if value == 0 then (.error .INVAL, []) else (os, [.setTtl h value])

/-- `util::set_ipv6_unicast_hops` from `host/network.rs`. -/
def set_ipv6_unicast_hops (h : Handle) (value : Nat) (os : Except Errno Unit) :
    Except Errno Unit × List Syscall :=
  if value == 0 then (.error .INVAL, []) else (os, [.setV6UnicastHops h value])

/-- `SystemTcpSocket::set_keepidle` from `tcp.rs`: 0 is rejected with
`EINVAL`; otherwise the duration is clamped to `[1s, 32767s]` and the
`TCP_KEEPIDLE` syscall is issued.  `value` is the duration in nanoseconds. -/
def set_keepidle (h : Handle) (value : Nat) (os : Except Errno Unit) :
    Except Errno Unit × List Syscall :=
  if value == 0 then
    (.error .INVAL, [])
  else
    (os, [.setKeepIdle h (clampNat nanosPerSec (32767 * nanosPerSec) value)])

/-- `SystemTcpSocket::set_hop_limit` from `tcp.rs`: dispatches on the family.
On Linux there is no shadow field, so the struct is unchanged. -/
def SystemTcpSocket.set_hop_limit (sock : SystemTcpSocket) (value : Nat)
    (os : Except Errno Unit) :
    (Except IoError Unit × SystemTcpSocket) × List Syscall :=
  match sock.family with
  | .v4 =>
    match set_ip_ttl sock.stream value os with
    | (.error e, sys) => ((.error (.fromErrno e), sock), sys)
    | (.ok (), sys) => ((.ok (), sock), sys)
  | .v6 =>
    match set_ipv6_unicast_hops sock.stream value os with
    | (.error e, sys) => ((.error (.fromErrno e), sock), sys)
    | (.ok (), sys) => ((.ok (), sock), sys)

/-- `SystemTcpSocket::set_keep_alive_idle_time` from `tcp.rs` (Linux: no
shadow field). -/
def SystemTcpSocket.set_keep_alive_idle_time (sock : SystemTcpSocket) (value : Nat)
    (os : Except Errno Unit) :
    (Except IoError Unit × SystemTcpSocket) × List Syscall :=
  match set_keepidle sock.stream value os with
  | (.error e, sys) => ((.error (.fromErrno e), sock), sys)
  | (.ok (), sys) => ((.ok (), sock), sys)

/-- `SystemTcpSocket::set_keep_alive_interval` from `tcp.rs`: same shape as
`set_keepidle` but for `TCP_KEEPINTVL`. -/
def SystemTcpSocket.set_keep_alive_interval (sock : SystemTcpSocket) (value : Nat)
    (os : Except Errno Unit) :
    (Except IoError Unit × SystemTcpSocket) × List Syscall :=
  if value == 0 then
    ((.error (.fromErrno .INVAL), sock), [])
  else
    match os with
    | .error e => ((.error (.fromErrno e), sock),
        [.setKeepIntvl sock.stream (clampNat nanosPerSec (32767 * nanosPerSec) value)])
    | .ok () => ((.ok (), sock),
        [.setKeepIntvl sock.stream (clampNat nanosPerSec (32767 * nanosPerSec) value)])

/-- `SystemTcpSocket::set_keep_alive_count` from `tcp.rs`: 0 rejected,
otherwise clamped to `[1, 127]`. -/
def SystemTcpSocket.set_keep_alive_count (sock : SystemTcpSocket) (value : Nat)
    (os : Except Errno Unit) :
    (Except IoError Unit × SystemTcpSocket) × List Syscall :=
  if value == 0 then
    ((.error (.fromErrno .INVAL), sock), [])
  else
    match os with
    | .error e => ((.error (.fromErrno e), sock),
        [.setKeepCnt sock.stream (clampNat 1 127 value)])
    | .ok () => ((.ok (), sock),
        [.setKeepCnt sock.stream (clampNat 1 127 value)])

/-- `util::normalize_get_buffer_size` from `host/network.rs`: Linux doubles
the value internally, so the getter halves it back. -/
def normalize_get_buffer_size (isLinux : Bool) (value : Nat) : Nat :=
  if isLinux then value / 2 else value

/-- `util::normalize_set_buffer_size` from `host/network.rs`. -/
def normalize_set_buffer_size (value : Nat) : Nat :=
  clampNat 1 i32Max value

/-- `util::set_socket_recv_buffer_size` from `host/network.rs`: 0 rejected
with `EINVAL` before the syscall; the value is clamped; `ENOBUFS` from the
syscall is rewritten to success. -/
def set_socket_recv_buffer_size (h : Handle) (value : Nat) (os : Except Errno Unit) :
    Except Errno Unit × List Syscall :=
  if value == 0 then
    (.error .INVAL, [])
  else
    let v := normalize_set_buffer_size value
    match os with
    | .error .NOBUFS => (.ok (), [.setRcvBuf h v])
    | r => (r, [.setRcvBuf h v])

/-- `util::set_socket_send_buffer_size` from `host/network.rs`. -/
def set_socket_send_buffer_size (h : Handle) (value : Nat) (os : Except Errno Unit) :
    Except Errno Unit × List Syscall :=
  if value == 0 then
    (.error .INVAL, [])
  else
    let v := normalize_set_buffer_size value
    match os with
    | .error .NOBUFS => (.ok (), [.setSndBuf h v])
    | r => (r, [.setSndBuf h v])

/-- `util::get_socket_recv_buffer_size` from `host/network.rs`: reads the
OS value (oracle `osValue`) and normalizes it. -/
def get_socket_recv_buffer_size (h : Handle) (isLinux : Bool)
    (osValue : Except Errno Nat) : Except Errno Nat × List Syscall :=
  match osValue with
  | .error e => (.error e, [.getRcvBuf h])
  | .ok v => (.ok (normalize_get_buffer_size isLinux v), [.getRcvBuf h])

/-- `SystemTcpSocket::set_receive_buffer_size` from `tcp.rs` (Linux: no
shadow field). -/
def SystemTcpSocket.set_receive_buffer_size (sock : SystemTcpSocket) (value : Nat)
    (os : Except Errno Unit) :
    (Except IoError Unit × SystemTcpSocket) × List Syscall :=
  match set_socket_recv_buffer_size sock.stream value os with
  | (.error e, sys) => ((.error (.fromErrno e), sock), sys)
  | (.ok (), sys) => ((.ok (), sock), sys)

/-- `SystemTcpSocket::set_send_buffer_size` from `tcp.rs` (Linux: no shadow
field). -/
def SystemTcpSocket.set_send_buffer_size (sock : SystemTcpSocket) (value : Nat)
    (os : Except Errno Unit) :
    (Except IoError Unit × SystemTcpSocket) × List Syscall :=
  match set_socket_send_buffer_size sock.stream value os with
  | (.error e, sys) => ((.error (.fromErrno e), sock), sys)
  | (.ok (), sys) => ((.ok (), sock), sys)

/-- `SystemTcpSocket::shutdown` from `tcp.rs`: unconditionally issues the
OS `shutdown` syscall (outcome `os`). -/
def SystemTcpSocket.shutdown (sock : SystemTcpSocket) (how : ShutdownHow)
    (os : Except Errno Unit) : Except IoError Unit × List Syscall :=
  (match os with
   | .error e => .error (.fromErrno e)
   | .ok () => .ok (),
   [.shutdownCall sock.stream how])

/-- `SystemTcpWriter::poll_shutdown` from `tcp.rs`: returns
`Poll::Ready(Ok(()))` without issuing any syscall, because the writer does
not own the socket. -/
def SystemTcpWriter.poll_shutdown (_w : SystemTcpWriter) :
    Poll (Except IoError Unit) × List Syscall :=
  (.ready (.ok ()), [])

/-- `SystemTcpWriter::poll_flush` from `tcp.rs`: there is no internal buffer,
so there is nothing to flush. -/
def SystemTcpWriter.poll_flush (_w : SystemTcpWriter) :
    Poll (Except IoError Unit) × List Syscall :=
  (.ready (.ok ()), [])

/-- The Linux-only errno normalization inside `SystemTcpSocket::try_accept`:
already-pending network errors surfaced by `accept` are rewritten to
`ECONNABORTED`, matching BSD semantics. -/
def normalizeAcceptErrno : Errno → Errno
  | .CONNRESET => .CONNABORTED
  | .NETRESET => .CONNABORTED
  | .HOSTUNREACH => .CONNABORTED
  | .HOSTDOWN => .CONNABORTED
  | .NETDOWN => .CONNABORTED
  | .NETUNREACH => .CONNABORTED
  | .PROTO => .CONNABORTED
  | .NOPROTOOPT => .CONNABORTED
  | .NONET => .CONNABORTED
  | .OPNOTSUPP => .CONNABORTED
  | e => e

/-- `SystemTcpSocket::try_accept` from `tcp.rs` (Linux configuration): the
OS `accept` outcome is the oracle `osAccept`, yielding the new client handle
on success.  On success the client is wrapped with `from_fd` and a reader and
writer sharing the client's stream are produced.  (The `#[cfg(windows)]`
`EINPROGRESS` rewrite and the `#[cfg(target_os = "macos")]` option
inheritance block are omitted.) -/
def SystemTcpSocket.try_accept (sock : SystemTcpSocket)
    (osAccept : Except Errno Handle) :
    Except IoError (SystemTcpSocket × SystemTcpReader × SystemTcpWriter) :=
  match osAccept with
  | .error e => .error (.fromErrno (normalizeAcceptErrno e))
  | .ok fd =>
    let client := SystemTcpSocket.from_fd fd sock.family
    .ok (client, ⟨client.stream⟩, ⟨client.stream⟩)

/-- One iteration of the readiness loop in
`SystemTcpSocket::poll_accept_no_box`: either the reactor reports the
listener as not ready, or it is ready and the OS `accept` has the given
outcome. -/
inductive ReadyStep
  | notReady
  | readyWith (osAccept : Except Errno Handle)

/-- `SystemTcpSocket::poll_accept_no_box` from `tcp.rs`: loop while the
readiness poll reports ready, retrying `try_accept` on `WouldBlock`; return
`Pending` as soon as readiness is not reported.  The oracle list `steps`
supplies one readiness answer (and accept outcome) per loop iteration; an
exhausted oracle behaves like a not-ready reactor. -/
def SystemTcpSocket.poll_accept_no_box (sock : SystemTcpSocket) :
    List ReadyStep →
    Poll (Except IoError (SystemTcpSocket × SystemTcpReader × SystemTcpWriter))
  | [] => .pending
  | .notReady :: _ => .pending
  | .readyWith osAccept :: rest =>
    match sock.try_accept osAccept with
    | .ok s => .ready (.ok s)
    | .error e =>
      if e.isWouldBlock then
        sock.poll_accept_no_box rest
      else
        .ready (.error e)

/-- `SystemTcpSocket::poll_accept` from `tcp.rs`: same as
`poll_accept_no_box`, the boxing of reader/writer being invisible in the
embedding. -/
def SystemTcpSocket.poll_accept (sock : SystemTcpSocket) (steps : List ReadyStep) :
    Poll (Except IoError (SystemTcpSocket × SystemTcpReader × SystemTcpWriter)) :=
  sock.poll_accept_no_box steps

/-- Modelled from the spec: `Preview2Future` (not under `src/`).  Per §4.2 of
the spec, while `Connecting` the socket holds a resolver that either has an
immediately-available result or a pending I/O completion; `try_resolve` polls
it once without blocking. -/
inductive Preview2Future (α : Type)
  | done (a : α)
  | pendingIo

/-- Modelled from the spec: `Preview2Future::try_resolve` returns the result
when available and `None` while the I/O completion is still pending. -/
def Preview2Future.tryResolve : Preview2Future α → Option α
  | .done a => some a
  | .pendingIo => none

/-- `SystemTcpSocket::connect` / `connect_non_boxing` from `tcp.rs`, as
observed through the single non-blocking poll that `start_connect` performs:
the three validations run first, without any syscall; if they pass, the
non-blocking `connect` syscall is issued with outcome `osConnect`.
`EINPROGRESS` leaves the future pending on writability (its eventual result
is determined later by `SO_ERROR`); any other outcome resolves the future
immediately. -/
def SystemTcpSocket.connect (sock : SystemTcpSocket) (remote : SocketAddr)
    (osConnect : Except Errno Unit) :
    Preview2Future (Except IoError (SystemTcpReader × SystemTcpWriter)) × List Syscall :=
  match validate_unicast remote with
  | .error e => (.done (.error e), [])
  | .ok () =>
    match validate_remote_address remote with
    | .error e => (.done (.error e), [])
    | .ok () =>
      match validate_address_family remote sock.family with
      | .error e => (.done (.error e), [])
      | .ok () =>
        match osConnect with
        | .ok () => (.done (.ok (⟨sock.stream⟩, ⟨sock.stream⟩)),
            [.connectCall sock.stream remote])
        | .error .INPROGRESS => (.pendingIo, [.connectCall sock.stream remote])
        | .error e => (.done (.error (.fromErrno e)),
            [.connectCall sock.stream remote])

/-- `TcpState` from `host/tcp.rs`. -/
inductive TcpState
  | default
  | bindStarted
  | bound
  | listenStarted
  | listening
      (pending_result :
        Option (Except IoError (SystemTcpSocket × SystemTcpReader × SystemTcpWriter)))
  | connecting
      (future : Preview2Future (Except IoError (SystemTcpReader × SystemTcpWriter)))
  | connected

/-- `TcpSocketResource` from `host/tcp.rs`. -/
structure TcpSocketResource where
  inner : SystemTcpSocket
  tcp_state : TcpState

/-- The values the TCP code stores in the resource table: socket resources
and the stream wrappers (`AsyncReadStream` / `AsyncWriteStream`, which are
external to `src/` and carry the reader/writer). -/
inductive TableValue
  | socketRes (r : TcpSocketResource)
  | inputStream (reader : SystemTcpReader)
  | outputStream (writer : SystemTcpWriter)

/-- Modelled from the spec: the resource table (§6.2, not under `src/`).
Each entry is a value together with its optional parent handle; handles are
indices.  Allocation is modelled as always succeeding. -/
structure Table where
  entries : List (TableValue × Option Nat)

/-- Modelled from the spec: `push(T) → handle` (§6.2). -/
def Table.push (t : Table) (v : TableValue) : Nat × Table :=
  (t.entries.length, ⟨t.entries ++ [(v, none)]⟩)

/-- Modelled from the spec: `push_child(T, parent) → handle`, with the child's
lifetime tied to the parent (§6.2). -/
def Table.pushChild (t : Table) (v : TableValue) (parent : Nat) : Nat × Table :=
  (t.entries.length, ⟨t.entries ++ [(v, some parent)]⟩)

/-- `HostTcpSocket::start_listen` from `host/tcp.rs`: only `Bound` proceeds
to `SystemTcpSocket::listen`; `ListenStarted`, `Connecting` and `BindStarted`
report `ConcurrencyConflict`; `Default`, `Connected` and `Listening` report
`InvalidState`. -/
def start_listen (socket : TcpSocketResource) (osListen : Except Errno Unit) :
    (Except ErrorCode Unit × TcpSocketResource) × List Syscall :=
  match socket.tcp_state with
  | .bound =>
    match socket.inner.listen osListen with
    | ((.error e, inner'), sys) =>
      ((.error e.toErrorCode, { socket with inner := inner' }), sys)
    | ((.ok (), inner'), sys) =>
      ((.ok (), { inner := inner', tcp_state := .listenStarted }), sys)
  | .default => ((.error .invalidState, socket), [])
  | .connected => ((.error .invalidState, socket), [])
  | .listening _ => ((.error .invalidState, socket), [])
  | .listenStarted => ((.error .concurrencyConflict, socket), [])
  | .connecting _ => ((.error .concurrencyConflict, socket), [])
  | .bindStarted => ((.error .concurrencyConflict, socket), [])

/-- `HostTcpSocket::start_connect` from `host/tcp.rs` for a socket the
network capability has already admitted: only `Default` proceeds;
`Connecting` reports `ConcurrencyConflict`, every other state
`InvalidState`.  The freshly created connect future is polled once
(`try_resolve`); a resolved error is returned immediately and the state is
left at `Default`, otherwise the state becomes `Connecting`. -/
def start_connect (socket : TcpSocketResource) (remote : SocketAddr)
    (osConnect : Except Errno Unit) :
    (Except ErrorCode Unit × TcpSocketResource) × List Syscall :=
  match socket.tcp_state with
  | .default =>
    match socket.inner.connect remote osConnect with
    | (future, sys) =>
      match future.tryResolve with
      | some (.error e) => ((.error e.toErrorCode, socket), sys)
      | some (.ok r) =>
        ((.ok (), { socket with tcp_state := .connecting (.done (.ok r)) }), sys)
      | none =>
        ((.ok (), { socket with tcp_state := .connecting future }), sys)
  | .connecting _ => ((.error .concurrencyConflict, socket), [])
  | _ => ((.error .invalidState, socket), [])

/-- `HostTcpSocket::finish_connect` from `host/tcp.rs`: only `Connecting`
proceeds (anything else is `NotInProgress`); a successfully resolved future
yields stream resources pushed as children of the socket resource handle
`this` and the state becomes `Connected`; a resolved error is returned and
the state falls back to `Default`; an unresolved future yields `WouldBlock`
with the state unchanged. -/
def finish_connect (this : Nat) (socket : TcpSocketResource) (t : Table) :
    Except ErrorCode (Nat × Nat) × TcpSocketResource × Table :=
  match socket.tcp_state with
  | .connecting future =>
    match future.tryResolve with
    | some (.ok (reader, writer)) =>
      let socket' := { socket with tcp_state := .connected }
      let (inputHandle, t1) := t.pushChild (.inputStream reader) this
      let (outputHandle, t2) := t1.pushChild (.outputStream writer) this
      (.ok (inputHandle, outputHandle), socket', t2)
    | some (.error e) =>
      (.error e.toErrorCode, { socket with tcp_state := .default }, t)
    | none => (.error .wouldBlock, socket, t)
  | _ => (.error .notInProgress, socket, t)

/-- The tail of `HostTcpSocket::accept` from `host/tcp.rs`: wrap the accepted
client in a new `Connected` socket resource, push it, and push its stream
halves as children of the new resource. -/
def acceptPush (socket : TcpSocketResource) (t : Table) (client : SystemTcpSocket)
    (reader : SystemTcpReader) (writer : SystemTcpWriter) :
    Except ErrorCode (Nat × Nat × Nat) × TcpSocketResource × Table :=
  let res : TcpSocketResource := { inner := client, tcp_state := .connected }
  let (sockHandle, t1) := t.push (.socketRes res)
  let (inputHandle, t2) := t1.pushChild (.inputStream reader) sockHandle
  let (outputHandle, t3) := t2.pushChild (.outputStream writer) sockHandle
  (.ok (sockHandle, inputHandle, outputHandle), socket, t3)

/-- `HostTcpSocket::accept` from `host/tcp.rs`: outside `Listening` the call
fails with `InvalidState`; in `Listening` the cached `pending_result` is
`take`n (clearing the cache) if present, otherwise a single non-blocking
`poll_accept` is performed, `Pending` becoming `WouldBlock`. -/
def accept (socket : TcpSocketResource) (t : Table) (steps : List ReadyStep) :
    Except ErrorCode (Nat × Nat × Nat) × TcpSocketResource × Table :=
  match socket.tcp_state with
  | .listening pending =>
    let socketCleared := { socket with tcp_state := .listening none }
    match pending with
    | some (.ok (client, reader, writer)) =>
      acceptPush socketCleared t client reader writer
    | some (.error e) => (.error e.toErrorCode, socketCleared, t)
    | none =>
      match socket.inner.poll_accept steps with
      | .ready (.ok (client, reader, writer)) =>
        acceptPush socketCleared t client reader writer
      | .ready (.error e) => (.error e.toErrorCode, socketCleared, t)
      | .pending => (.error .wouldBlock, socketCleared, t)
  | _ => (.error .invalidState, socket, t)

/-- `HostTcpSocket::local_address` from `host/tcp.rs`: `Default` is
`InvalidState` and `BindStarted` is `ConcurrencyConflict`, both before any
syscall; every other state queries the OS (`getsockname`, outcome
`osAddr`). -/
def local_address (socket : TcpSocketResource) (osAddr : Except Errno SocketAddr) :
    Except ErrorCode SocketAddr × List Syscall :=
  match socket.tcp_state with
  | .default => (.error .invalidState, [])
  | .bindStarted => (.error .concurrencyConflict, [])
  | _ =>
    match osAddr with
    | .ok a => (.ok a, [.getLocalAddr socket.inner.stream])
    | .error e => (.error (IoError.fromErrno e).toErrorCode,
        [.getLocalAddr socket.inner.stream])

/-- `HostTcpSocket::remote_address` from `host/tcp.rs`: only `Connected`
queries the OS (`getpeername`, outcome `osAddr`); `Connecting` is
`ConcurrencyConflict`, every other state `InvalidState`, all before any
syscall. -/
def remote_address (socket : TcpSocketResource) (osAddr : Except Errno SocketAddr) :
    Except ErrorCode SocketAddr × List Syscall :=
  match socket.tcp_state with
  | .connected =>
    match osAddr with
    | .ok a => (.ok a, [.getPeerAddr socket.inner.stream])
    | .error e => (.error (IoError.fromErrno e).toErrorCode,
        [.getPeerAddr socket.inner.stream])
  | .connecting _ => (.error .concurrencyConflict, [])
  | _ => (.error .invalidState, [])

/-- Computable success test on `Except` (used to state that a validation
fails without needing decidable equality on the result type). -/
def resultIsOk : Except ε α → Bool
  | .ok _ => true
  | .error _ => false

/-- The recv-buffer set-then-get round trip of C3's option accessors under an
ideal OS: `set_socket_recv_buffer_size` issues the syscall with the clamped
value, the OS stores it (doubling it internally on Linux, with no further
clamping modelled), and `get_socket_recv_buffer_size` reads it back. -/
def osStoredRecvBuf (isLinux : Bool) (req : Nat) : Nat :=
  if isLinux then 2 * req else req

/-- Composition of `set_socket_recv_buffer_size` and
`get_socket_recv_buffer_size` through the ideal OS store. -/
def recv_buffer_roundtrip (isLinux : Bool) (h : Handle) (v : Nat) :
    Except Errno Nat :=
  match set_socket_recv_buffer_size h v (.ok ()) with
  | (.error e, _) => .error e
  | (.ok (), _) =>
    (get_socket_recv_buffer_size h isLinux
      (.ok (osStoredRecvBuf isLinux (normalize_set_buffer_size v)))).1

/-- Every failure of `validate_unicast` is an `InvalidInput` io error. -/
theorem validate_unicast_cases (a : SocketAddr) :
    validate_unicast a = .ok () ∨
      validate_unicast a = .error (.fromKind .invalidInput) := by
  unfold validate_unicast
  cases to_canonical a.ip <;> dsimp only <;> split <;> simp

/-- Every failure of `validate_remote_address` is an `InvalidInput` io
error. -/
theorem validate_remote_address_cases (a : SocketAddr) :
    validate_remote_address a = .ok () ∨
      validate_remote_address a = .error (.fromKind .invalidInput) := by
  unfold validate_remote_address
  split
  · simp
  · split <;> simp

/-- C9: the TCP writer half-stream's shutdown hook is a no-op.
`SystemTcpWriter::poll_shutdown` always returns `Poll::Ready(Ok(()))`
immediately and issues no syscall at all (in particular no `shutdown`), so
half-close can only come from `SystemTcpSocket::shutdown`, the explicit
shutdown operation on the parent socket, which is the one operation that
issues a `shutdown` syscall on the shared handle. -/
theorem writer_poll_shutdown_noop :
    (∀ w : SystemTcpWriter, w.poll_shutdown = (.ready (.ok ()), [])) ∧
    (∀ (sock : SystemTcpSocket) (how : ShutdownHow) (os : Except Errno Unit),
      (sock.shutdown how os).2 = [.shutdownCall sock.stream how]) :=
  ⟨fun _ => rfl, fun _ _ _ => rfl⟩

/-- C7: a zero value passed to `set_hop_limit`, `set_keep_alive_idle_time`,
`set_keep_alive_interval`, `set_keep_alive_count`, `set_receive_buffer_size`,
`set_send_buffer_size` or `set_listen_backlog_size` is rejected with
`EINVAL` (which maps to `InvalidArgument`) before any sockopt syscall is
issued, leaving the socket unchanged. -/
theorem zero_sockopt_values_rejected (sock : SystemTcpSocket)
    (os : Except Errno Unit) :
    sock.set_hop_limit 0 os = ((.error (.fromErrno .INVAL), sock), []) ∧
    sock.set_keep_alive_idle_time 0 os = ((.error (.fromErrno .INVAL), sock), []) ∧
    sock.set_keep_alive_interval 0 os = ((.error (.fromErrno .INVAL), sock), []) ∧
    sock.set_keep_alive_count 0 os = ((.error (.fromErrno .INVAL), sock), []) ∧
    sock.set_receive_buffer_size 0 os = ((.error (.fromErrno .INVAL), sock), []) ∧
    sock.set_send_buffer_size 0 os = ((.error (.fromErrno .INVAL), sock), []) ∧
    sock.set_listen_backlog_size 0 os = ((.error (.fromErrno .INVAL), sock), []) ∧
    (IoError.fromErrno .INVAL).toErrorCode = .invalidArgument := by
  refine ⟨?_, rfl, rfl, rfl, rfl, rfl, rfl, rfl⟩
  obtain ⟨h, bl, il, fam⟩ := sock
  cases fam <;> rfl

/-- C6: `validate_address_family` accepts a V4 address exactly on a V4
socket; a V6 address on a V6 socket is accepted exactly when it is neither
deprecated IPv4-compatible nor IPv4-mapped; both family mismatches (a V4
address on a V6 socket and a V6 address on a V4 socket) fail with
`InvalidInput`; every failure is the `InvalidInput` io error (mapping to
`invalid-argument`); and `is_deprecated_ipv4_compatible` holds exactly when
the high 96 bits are zero and the address is neither unspecified nor
loopback. -/
theorem validate_address_family_spec (addr : SocketAddr)
    (family : SocketAddrFamily) :
    (∀ a, addr.ip = .v4 a →
      (resultIsOk (validate_address_family addr family) = true ↔ family = .v4)) ∧
    (∀ a, addr.ip = .v6 a → family = .v6 →
      (resultIsOk (validate_address_family addr family) = true ↔
        (is_deprecated_ipv4_compatible a = false ∧ a.to_ipv4_mapped = none))) ∧
    (∀ a, addr.ip = .v4 a → family = .v6 →
      validate_address_family addr family = .error (.fromKind .invalidInput)) ∧
    (∀ a, addr.ip = .v6 a → family = .v4 →
      validate_address_family addr family = .error (.fromKind .invalidInput)) ∧
    (resultIsOk (validate_address_family addr family) = false →
      validate_address_family addr family = .error (.fromKind .invalidInput)) ∧
    (IoError.fromKind .invalidInput).toErrorCode = .invalidArgument ∧
    (∀ a : Ipv6Addr, is_deprecated_ipv4_compatible a = true ↔
      ((a.s0 = 0 ∧ a.s1 = 0 ∧ a.s2 = 0 ∧ a.s3 = 0 ∧ a.s4 = 0 ∧ a.s5 = 0) ∧
        a ≠ Ipv6Addr.unspecified ∧ a ≠ Ipv6Addr.localhost)) := by
  obtain ⟨ip, port⟩ := addr
  refine ⟨?_, ?_, ?_, ?_, ?_, rfl, ?_⟩
  · rintro a rfl
    cases family <;> simp [validate_address_family, resultIsOk]
  · rintro a rfl rfl
    cases hd : is_deprecated_ipv4_compatible a <;>
      cases hm : a.to_ipv4_mapped <;>
        simp [validate_address_family, resultIsOk, hd, hm]
  · rintro a rfl rfl
    rfl
  · rintro a rfl rfl
    rfl
  · cases family <;> cases ip <;>
      simp only [validate_address_family, resultIsOk]
    case v4.v4 => simp
    case v4.v6 => simp
    case v6.v4 => simp
    case v6.v6 a =>
      cases hd : is_deprecated_ipv4_compatible a <;>
        cases hm : a.to_ipv4_mapped <;> simp [hd, hm]
  · intro a
    simp [is_deprecated_ipv4_compatible, and_assoc]

/-- Witness for C6 at the IPv4-mapped address `::ffff:1.2.3.4` on a V6
socket: rejected with `InvalidInput`. -/
theorem validate_address_family_spec_witness :
    validate_address_family ⟨.v6 ⟨0, 0, 0, 0, 0, 0xffff, 0x0102, 0x0304⟩, 80⟩ .v6 =
      .error (.fromKind .invalidInput) :=
  (validate_address_family_spec _ _).2.2.2.2.1 rfl

/-- C2: on a socket that is already listening, `set_listen_backlog_size`
with a value whose re-applied `listen` syscall fails returns `EOPNOTSUPP`
(mapping to `not-supported`) and leaves the stored `listen_backlog_size`
field, and the whole socket, unchanged; when the re-`listen` succeeds the
clamped value is stored. -/
theorem set_listen_backlog_relisten_failure (sock : SystemTcpSocket)
    (value : Nat) (e : Errno) (hl : sock.is_listening = true) (hv : value ≠ 0) :
    (sock.set_listen_backlog_size value (.error e)).1 =
      (.error (.fromErrno .OPNOTSUPP), sock) ∧
    (IoError.fromErrno .OPNOTSUPP).toErrorCode = .notSupported ∧
    (sock.set_listen_backlog_size value (.ok ())).1.2.listen_backlog_size =
      clampNat 1 i32Max (if value ≤ i32Max then value else i32Max) := by
  refine ⟨?_, rfl, ?_⟩ <;>
    simp [SystemTcpSocket.set_listen_backlog_size, hl, hv]

/-- Witness for C2 on a concrete listening socket whose re-`listen` reports
`EINVAL`. -/
theorem set_listen_backlog_relisten_failure_witness :
    (SystemTcpSocket.set_listen_backlog_size ⟨7, 128, true, .v4⟩ 5 (.error .INVAL)).1 =
      (.error (.fromErrno .OPNOTSUPP), (⟨7, 128, true, .v4⟩ : SystemTcpSocket)) :=
  (set_listen_backlog_relisten_failure _ 5 .INVAL rfl (by decide)).1

/-- C8 (amended): for every `v > 0`, setting and then getting the receive
buffer size through an OS that applies no clamping beyond Linux's internal
doubling returns exactly `clamp(v, 1, i32::MAX)` on every platform; this is
at least `v / 2` whenever `v ≤ 2^32 - 1` (for larger `v` the `i32::MAX` cap
makes the result fall below `v / 2`), and at least
`clamp(v, 1, i32::MAX)` always; `ENOBUFS` from the set syscall is treated as
success. -/
theorem recv_buffer_roundtrip_amended (isLinux : Bool) (h : Handle) (v : Nat)
    (hv : 0 < v) :
    recv_buffer_roundtrip isLinux h v = .ok (clampNat 1 i32Max v) ∧
    (v ≤ 4294967295 → v / 2 ≤ clampNat 1 i32Max v) ∧
    set_socket_recv_buffer_size h v (.error .NOBUFS) =
      (.ok (), [.setRcvBuf h (normalize_set_buffer_size v)]) := by
  have hv' : v ≠ 0 := Nat.pos_iff_ne_zero.mp hv
  refine ⟨?_, ?_, ?_⟩
  · cases isLinux <;>
      simp [recv_buffer_roundtrip, set_socket_recv_buffer_size,
        get_socket_recv_buffer_size, osStoredRecvBuf, normalize_get_buffer_size,
        normalize_set_buffer_size, hv', Nat.mul_div_cancel_left]
  · intro hle
    simp only [clampNat, i32Max]
    omega
  · simp [set_socket_recv_buffer_size, hv']

/-- Witness for C8 at `v = 8` on Linux. -/
theorem recv_buffer_roundtrip_amended_witness :
    recv_buffer_roundtrip true 0 8 = .ok (clampNat 1 i32Max 8) :=
  (recv_buffer_roundtrip_amended true 0 8 (by decide)).1

/-- Counterexample to C8 as stated: on Linux, for `v = 2^32` the round trip
returns `i32::MAX = 2147483647`, which is strictly below `v / 2 =
2147483648`, even with no extra OS clamping. -/
theorem recv_buffer_roundtrip_claim_counterexample :
    recv_buffer_roundtrip true 0 4294967296 = .ok 2147483647 ∧
    ¬ (4294967296 / 2 ≤ 2147483647) :=
  ⟨rfl, by decide⟩

/-- C1 (amended): `start_listen` succeeds exactly when the state is `Bound`
(and the underlying `listen` syscall succeeds on a not-yet-listening backend),
transitioning to `ListenStarted`; in `BindStarted`, `Connecting` and
`ListenStarted` it returns `ConcurrencyConflict`; in `Default`, `Listening`
and `Connected` it returns `InvalidState`; every error case leaves the socket
unmutated. -/
theorem start_listen_amended (s : TcpSocketResource) (os : Except Errno Unit) :
    (s.tcp_state = .bound → s.inner.is_listening = false → os = .ok () →
      start_listen s os =
        ((.ok (), { inner := { s.inner with is_listening := true },
                    tcp_state := .listenStarted }),
         [.listenCall s.inner.stream s.inner.listen_backlog_size])) ∧
    (s.tcp_state = .bindStarted →
      start_listen s os = ((.error .concurrencyConflict, s), [])) ∧
    (s.tcp_state = .listenStarted →
      start_listen s os = ((.error .concurrencyConflict, s), [])) ∧
    (∀ f, s.tcp_state = .connecting f →
      start_listen s os = ((.error .concurrencyConflict, s), [])) ∧
    (s.tcp_state = .default →
      start_listen s os = ((.error .invalidState, s), [])) ∧
    (∀ p, s.tcp_state = .listening p →
      start_listen s os = ((.error .invalidState, s), [])) ∧
    (s.tcp_state = .connected →
      start_listen s os = ((.error .invalidState, s), [])) ∧
    (∀ u s2 sys, start_listen s os = ((.ok u, s2), sys) →
      s.tcp_state = .bound) := by
  obtain ⟨inn, st⟩ := s
  refine ⟨?_, ?_, ?_, ?_, ?_, ?_, ?_, ?_⟩
  · rintro rfl hlisten rfl
    dsimp only at hlisten
    simp [start_listen, SystemTcpSocket.listen, hlisten]
  · rintro rfl; rfl
  · rintro rfl; rfl
  · rintro f rfl; rfl
  · rintro rfl; rfl
  · rintro p rfl; rfl
  · rintro rfl; rfl
  · intro u s2 sys heq
    cases st
    case bound => rfl
    all_goals simp [start_listen] at heq

/-- Witness for C1 on a concrete bound socket with a successful `listen`
syscall. -/
theorem start_listen_amended_witness :
    start_listen ⟨⟨3, 128, false, .v4⟩, .bound⟩ (.ok ()) =
      ((.ok (), ⟨⟨3, 128, true, .v4⟩, .listenStarted⟩), [.listenCall 3 128]) :=
  (start_listen_amended _ _).1 rfl rfl rfl

/-- Counterexample to C1 as stated: in state `ListenStarted`, `start_listen`
returns `ConcurrencyConflict`, not the `InvalidState` the claim assigns to
that state. -/
theorem start_listen_claim_counterexample :
    (start_listen ⟨⟨0, 128, false, .v4⟩, .listenStarted⟩ (.ok ())).1.1 =
      .error .concurrencyConflict ∧
    ErrorCode.concurrencyConflict ≠ ErrorCode.invalidState :=
  ⟨rfl, by decide⟩

/-- C10: `local_address` returns `InvalidState` in `Default` and
`ConcurrencyConflict` in `BindStarted` and succeeds in every other state
(when the OS query succeeds); `remote_address` succeeds only in `Connected`,
returning `ConcurrencyConflict` in `Connecting` and `InvalidState`
everywhere else; every error case issues no OS address-query syscall. -/
theorem address_query_state_spec (s : TcpSocketResource)
    (osAddr : Except Errno SocketAddr) :
    (s.tcp_state = .default →
      local_address s osAddr = (.error .invalidState, [])) ∧
    (s.tcp_state = .bindStarted →
      local_address s osAddr = (.error .concurrencyConflict, [])) ∧
    (s.tcp_state = .bound → ∀ a, osAddr = .ok a →
      local_address s osAddr = (.ok a, [.getLocalAddr s.inner.stream])) ∧
    (s.tcp_state = .listenStarted → ∀ a, osAddr = .ok a →
      local_address s osAddr = (.ok a, [.getLocalAddr s.inner.stream])) ∧
    (∀ p, s.tcp_state = .listening p → ∀ a, osAddr = .ok a →
      local_address s osAddr = (.ok a, [.getLocalAddr s.inner.stream])) ∧
    (∀ f, s.tcp_state = .connecting f → ∀ a, osAddr = .ok a →
      local_address s osAddr = (.ok a, [.getLocalAddr s.inner.stream])) ∧
    (s.tcp_state = .connected → ∀ a, osAddr = .ok a →
      local_address s osAddr = (.ok a, [.getLocalAddr s.inner.stream])) ∧
    (s.tcp_state = .connected → ∀ a, osAddr = .ok a →
      remote_address s osAddr = (.ok a, [.getPeerAddr s.inner.stream])) ∧
    (∀ f, s.tcp_state = .connecting f →
      remote_address s osAddr = (.error .concurrencyConflict, [])) ∧
    (s.tcp_state = .default →
      remote_address s osAddr = (.error .invalidState, [])) ∧
    (s.tcp_state = .bindStarted →
      remote_address s osAddr = (.error .invalidState, [])) ∧
    (s.tcp_state = .bound →
      remote_address s osAddr = (.error .invalidState, [])) ∧
    (s.tcp_state = .listenStarted →
      remote_address s osAddr = (.error .invalidState, [])) ∧
    (∀ p, s.tcp_state = .listening p →
      remote_address s osAddr = (.error .invalidState, [])) := by
  obtain ⟨inn, st⟩ := s
  refine ⟨?_, ?_, ?_, ?_, ?_, ?_, ?_, ?_, ?_, ?_, ?_, ?_, ?_, ?_⟩
  · rintro rfl; rfl
  · rintro rfl; rfl
  · rintro rfl a rfl; rfl
  · rintro rfl a rfl; rfl
  · rintro p rfl a rfl; rfl
  · rintro f rfl a rfl; rfl
  · rintro rfl a rfl; rfl
  · rintro rfl a rfl; rfl
  · rintro f rfl; rfl
  · rintro rfl; rfl
  · rintro rfl; rfl
  · rintro rfl; rfl
  · rintro rfl; rfl
  · rintro p rfl; rfl

/-- Witness for C10 on a concrete socket in `Default`: `local_address` fails
with `InvalidState` without querying the OS. -/
theorem address_query_state_spec_witness :
    local_address ⟨⟨0, 128, false, .v4⟩, .default⟩
        (.ok ⟨.v4 ⟨127, 0, 0, 1⟩, 80⟩) = (.error .invalidState, []) :=
  (address_query_state_spec _ _).1 rfl

/-- C3: `finish_connect` outside `Connecting` returns `NotInProgress`; in
`Connecting` with the future resolved successfully it transitions to
`Connected` and pushes the input and output streams as children of the
socket resource handle; with the future resolved to an error it returns that
error (mapped) and falls back to `Default`; with the future unresolved it
returns `WouldBlock` and the state stays `Connecting`. -/
theorem finish_connect_spec (this : Nat) (s : TcpSocketResource) (t : Table) :
    (s.tcp_state = .default →
      finish_connect this s t = (.error .notInProgress, s, t)) ∧
    (s.tcp_state = .bindStarted →
      finish_connect this s t = (.error .notInProgress, s, t)) ∧
    (s.tcp_state = .bound →
      finish_connect this s t = (.error .notInProgress, s, t)) ∧
    (s.tcp_state = .listenStarted →
      finish_connect this s t = (.error .notInProgress, s, t)) ∧
    (∀ p, s.tcp_state = .listening p →
      finish_connect this s t = (.error .notInProgress, s, t)) ∧
    (s.tcp_state = .connected →
      finish_connect this s t = (.error .notInProgress, s, t)) ∧
    (∀ r w, s.tcp_state = .connecting (.done (.ok (r, w))) →
      finish_connect this s t =
        (.ok (t.entries.length, t.entries.length + 1),
          { s with tcp_state := .connected },
          ⟨t.entries ++ [(.inputStream r, some this),
            (.outputStream w, some this)]⟩)) ∧
    (∀ e, s.tcp_state = .connecting (.done (.error e)) →
      finish_connect this s t =
        (.error e.toErrorCode, { s with tcp_state := .default }, t)) ∧
    (s.tcp_state = .connecting .pendingIo →
      finish_connect this s t = (.error .wouldBlock, s, t)) := by
  obtain ⟨inn, st⟩ := s
  obtain ⟨ents⟩ := t
  refine ⟨?_, ?_, ?_, ?_, ?_, ?_, ?_, ?_, ?_⟩
  · rintro rfl; rfl
  · rintro rfl; rfl
  · rintro rfl; rfl
  · rintro rfl; rfl
  · rintro p rfl; rfl
  · rintro rfl; rfl
  · rintro r w rfl
    simp [finish_connect, Preview2Future.tryResolve, Table.pushChild]
  · rintro e rfl; rfl
  · rintro rfl; rfl

/-- Witness for C3 on a concrete socket whose connect future has resolved
successfully, with an empty table. -/
theorem finish_connect_spec_witness :
    finish_connect 0 ⟨⟨4, 128, false, .v4⟩, .connecting (.done (.ok (⟨4⟩, ⟨4⟩)))⟩ ⟨[]⟩ =
      (.ok (0, 1), ⟨⟨4, 128, false, .v4⟩, .connected⟩,
        ⟨[(.inputStream ⟨4⟩, some 0), (.outputStream ⟨4⟩, some 0)]⟩) :=
  (finish_connect_spec 0 _ _).2.2.2.2.2.2.1 ⟨4⟩ ⟨4⟩ rfl

/-- C4: `accept` outside `Listening` returns `InvalidState`; in `Listening`
it first consumes the cached `pending_result` (clearing the cache, whether
the cached value was a success or an error); with no cached result it polls
the listener once, `Pending` becoming `WouldBlock`; every successful path
returns a `(child_socket, input, output)` triple whose child socket resource
is initialized in state `Connected`. -/
theorem accept_spec (s : TcpSocketResource) (t : Table) (steps : List ReadyStep) :
    (s.tcp_state = .default → accept s t steps = (.error .invalidState, s, t)) ∧
    (s.tcp_state = .bindStarted → accept s t steps = (.error .invalidState, s, t)) ∧
    (s.tcp_state = .bound → accept s t steps = (.error .invalidState, s, t)) ∧
    (s.tcp_state = .listenStarted → accept s t steps = (.error .invalidState, s, t)) ∧
    (∀ f, s.tcp_state = .connecting f →
      accept s t steps = (.error .invalidState, s, t)) ∧
    (s.tcp_state = .connected → accept s t steps = (.error .invalidState, s, t)) ∧
    (∀ c r w, s.tcp_state = .listening (some (.ok (c, r, w))) →
      accept s t steps =
        (.ok (t.entries.length, t.entries.length + 1, t.entries.length + 2),
          { s with tcp_state := .listening none },
          ⟨t.entries ++ [(.socketRes ⟨c, .connected⟩, none),
            (.inputStream r, some t.entries.length),
            (.outputStream w, some t.entries.length)]⟩)) ∧
    (∀ e, s.tcp_state = .listening (some (.error e)) →
      accept s t steps =
        (.error e.toErrorCode, { s with tcp_state := .listening none }, t)) ∧
    (s.tcp_state = .listening none → s.inner.poll_accept steps = .pending →
      accept s t steps = (.error .wouldBlock, s, t)) ∧
    (∀ c r w, s.tcp_state = .listening none →
      s.inner.poll_accept steps = .ready (.ok (c, r, w)) →
      accept s t steps =
        (.ok (t.entries.length, t.entries.length + 1, t.entries.length + 2),
          s,
          ⟨t.entries ++ [(.socketRes ⟨c, .connected⟩, none),
            (.inputStream r, some t.entries.length),
            (.outputStream w, some t.entries.length)]⟩)) ∧
    (∀ e, s.tcp_state = .listening none →
      s.inner.poll_accept steps = .ready (.error e) →
      accept s t steps = (.error e.toErrorCode, s, t)) := by
  obtain ⟨inn, st⟩ := s
  obtain ⟨ents⟩ := t
  refine ⟨?_, ?_, ?_, ?_, ?_, ?_, ?_, ?_, ?_, ?_, ?_⟩
  · rintro rfl; rfl
  · rintro rfl; rfl
  · rintro rfl; rfl
  · rintro rfl; rfl
  · rintro f rfl; rfl
  · rintro rfl; rfl
  · rintro c r w rfl
    simp [accept, acceptPush, Table.push, Table.pushChild]
  · rintro e rfl; rfl
  · rintro rfl hp
    simp [accept, hp]
  · rintro c r w rfl hp
    simp [accept, hp, acceptPush, Table.push, Table.pushChild]
  · rintro e rfl hp
    simp [accept, hp]

/-- Witness for C4 on a concrete listening socket with a cached successful
pending result and an empty table. -/
theorem accept_spec_witness :
    accept ⟨⟨5, 128, true, .v4⟩,
        .listening (some (.ok (⟨9, 128, false, .v4⟩, ⟨9⟩, ⟨9⟩)))⟩ ⟨[]⟩ [] =
      (.ok (0, 1, 2), ⟨⟨5, 128, true, .v4⟩, .listening none⟩,
        ⟨[(.socketRes ⟨⟨9, 128, false, .v4⟩, .connected⟩, none),
          (.inputStream ⟨9⟩, some 0), (.outputStream ⟨9⟩, some 0)]⟩) :=
  (accept_spec _ _ []).2.2.2.2.2.2.1 ⟨9, 128, false, .v4⟩ ⟨9⟩ ⟨9⟩ rfl

/-- C5: when `validate_remote_address` rejects the remote address,
`start_connect` on a socket in state `Default` returns `InvalidArgument`
without issuing any syscall (in particular no OS `connect`), and the socket
stays in state `Default`, unmutated. -/
theorem start_connect_invalid_remote (s : TcpSocketResource)
    (remote : SocketAddr) (os : Except Errno Unit)
    (hs : s.tcp_state = .default)
    (hr : resultIsOk (validate_remote_address remote) = false) :
    start_connect s remote os = ((.error .invalidArgument, s), []) := by
  obtain ⟨inn, st⟩ := s
  dsimp only at hs
  subst hs
  unfold start_connect SystemTcpSocket.connect
  rcases validate_unicast_cases remote with hu | hu
  · rw [hu]
    have hr' : validate_remote_address remote = .error (.fromKind .invalidInput) := by
      rcases validate_remote_address_cases remote with h | h
      · rw [h] at hr
        simp [resultIsOk] at hr
      · exact h
    rw [hr']
    rfl
  · rw [hu]
    rfl

/-- Witness for C5 at remote address `10.0.0.1:0` (port 0 is rejected) on a
fresh V4 socket. -/
theorem start_connect_invalid_remote_witness :
    start_connect ⟨⟨0, 128, false, .v4⟩, .default⟩ ⟨.v4 ⟨10, 0, 0, 1⟩, 0⟩ (.ok ()) =
      ((.error .invalidArgument, ⟨⟨0, 128, false, .v4⟩, .default⟩), []) :=
  start_connect_invalid_remote _ _ _ rfl rfl

end WasiTcp
